import Mathlib

/-!
Verification of the smart-learner flashcard application against its
specification.

The date module (smart-learner-core/src/date.rs) and the application layer
(smart-learner-helper/src/app.rs) are embedded shallowly below.  The core
card/deck module (card.rs, deck.rs, field.rs) is not part of the available
sources; the definitions that depend on it are modelled from the spec and
carry a doc comment saying so.

Machine integers (u8, u16, u64, usize) are modelled as Nat: all the
arithmetic performed by the embedded code stays far below every relevant
bound (years are u16, day counts stay below 2^25), so no wrap-around can
occur and the Nat semantics agree with the Rust semantics pointwise.
Rust panics (out-of-bounds indexing, Option::unwrap) are modelled by
Option-valued functions returning none.
-/

namespace SmartLearner

/-! ## Date (smart-learner-core/src/date.rs) -/

structure Date where
  day : Nat
  month : Nat
  year : Nat
deriving DecidableEq, Repr

-- pub fn is_leap_year(year: &u16) -> bool
def is_leap_year (year : Nat) : Bool :=
  ((year % 4 == 0) && (year % 100 != 0)) || (year % 400 == 0)

-- const DAYS_IN_MONTH: [u8; 12]
def DAYS_IN_MONTH : List Nat := [31, 28, 31, 30, 31, 30, 31, 31, 30, 31, 30, 31]

-- pub fn month_length(month: &u8, year: &u16) -> u8.
-- Rust panics when month is 0 or larger than 12 (index out of bounds);
-- the model returns the getD default 0 there.  All claims stay in 1..=12.
def month_length (month year : Nat) : Nat :=
  if is_leap_year year && month == 2 then 29
  else DAYS_IN_MONTH.getD (month - 1) 0

-- impl PartialEq for Date (field-wise equality)
def dateEq (a b : Date) : Bool :=
  a.day == b.day && a.month == b.month && a.year == b.year

-- u16/u8 comparison always yields Some; Rust integer cmp is
-- Less / Greater / Equal by the strict orders.
def natCmpOpt (a b : Nat) : Option Ordering :=
  some (if a < b then Ordering.lt else if b < a then Ordering.gt else Ordering.eq)

-- impl PartialOrd for Date: year, then month, then day.
def dateCmpOpt (a b : Date) : Option Ordering :=
  match natCmpOpt a.year b.year with
  | some Ordering.eq =>
    match natCmpOpt a.month b.month with
    | some Ordering.eq => natCmpOpt a.day b.day
    | ord => ord
  | ord => ord

-- pub fn difference(&self, other: &Self) -> u64.
-- for year in self.year..other.year; for month in self.month..other.month;
-- then the absolute day delta.  Rust ranges a..b are empty when b <= a,
-- exactly like List.range' a (b - a) under Nat subtraction.
def difference (self other : Date) : Nat :=
  let dYears := ((List.range' self.year (other.year - self.year)).map
    (fun year => if is_leap_year year then 366 else 365)).sum
  let dMonths := ((List.range' self.month (other.month - self.month)).map
    (fun month => month_length month self.year)).sum
  let dDays :=
    if self.day > other.day then self.day - other.day
    else if other.day > self.day then other.day - self.day
    else 0
  dYears + dMonths + dDays

/-- The Gregorian leap-year rule exactly as the spec words it. -/
def gregorianRule (year : Nat) : Prop :=
  (year % 4 = 0 ∧ year % 100 ≠ 0) ∨ year % 400 = 0

/-- The spec's total order on dates: year, then month, then day, ascending. -/
def dateLexLt (a b : Date) : Prop :=
  a.year < b.year ∨
    (a.year = b.year ∧ (a.month < b.month ∨ (a.month = b.month ∧ a.day < b.day)))

instance dateLexLtDecidable (a b : Date) : Decidable (dateLexLt a b) := by
  unfold dateLexLt
  infer_instance

-- Rust `a <= b` derived from PartialOrd: Some(Less) or Some(Equal).
def date_le (a b : Date) : Bool :=
  match dateCmpOpt a b with
  | some Ordering.lt => true
  | some Ordering.eq => true
  | _ => false

/-! ## Card, Deck, Field (modelled: core sources not in the excerpt) -/

/-- Modelled from the spec: smart-learner-core/src/field.rs is missing.
Per §3 a Field is a text plus an optional audio reference; app.rs accesses
the fields as .text and .audio_path. -/
structure Field where
  text : String
  audio_path : Option String
deriving DecidableEq, Repr

/-- Modelled from the spec: smart-learner-core/src/card.rs is missing.
Per §3 a Card is front and back Fields plus scheduling state (interval
tier, due date); app.rs additionally reads a current_repeat_in counter
(days until the next repeat, 0 when the card is due again today). -/
structure Card where
  front : Field
  back : Field
  interval_tier : Nat
  current_repeat_in : Nat
  due_date : Date
deriving DecidableEq, Repr

/-- Modelled from the spec: smart-learner-core/src/deck.rs is missing.
Per §3 a Deck is a non-empty name plus an ordered sequence of cards. -/
structure Deck where
  name : String
  cards : List Card
deriving DecidableEq, Repr

/-- Modelled from the spec: Deck::due_card (deck.rs is missing).  Per §4.3
it scans cards in sequence order and returns the position of the first card
whose due_date <= today; app.rs calls it with no arguments, so the clock is
the only input beside the deck. -/
def Deck.due_card (today : Date) (d : Deck) : Option Nat :=
  d.cards.findIdx? (fun c => date_le c.due_date today)

-- Substring containment on character lists, for the modelled search.
def matchesAt (q : List Char) : List Char → Bool
  | [] => q.isEmpty
  | c :: l =>
    match q with
    | [] => true
    | qc :: qrest => qc == c && matchesAt qrest l

def hasSubList (q : List Char) : List Char → Bool
  | [] => q.isEmpty
  | c :: l => matchesAt q (c :: l) || hasSubList q l

def strContainsSub (hay q : String) : Bool :=
  hasSubList q.data hay.data

/-- Modelled from the spec: Deck::search (deck.rs is missing).  Per §4.3 it
is a substring match against the chosen side's text across all cards in
sequence order, returning (position, display text) pairs in sequence
order. -/
def Deck.search (d : Deck) (back : Bool) (query : String) : List (Nat × String) :=
  d.cards.enum.filterMap (fun p =>
    let f := if back then p.2.back else p.2.front
    if strContainsSub f.text query then some (p.1, f.text) else none)

/-! ## App (smart-learner-helper/src/app.rs) -/

-- Config: only the folder_path field is read by app.rs.
structure Config where
  folder_path : String
deriving DecidableEq, Repr

/-- Modelled from usage: data::DeckFromFile (data.rs is missing) pairs a
Deck value with its file path. -/
structure DeckFromFile where
  value : Deck
  path : String
deriving DecidableEq, Repr

structure App where
  config : Config
  decks : List DeckFromFile
  current_deck : Nat
  current_card : Option Nat
  card_front : String
  card_back : String
  search_text : String
  back_search : Bool
deriving DecidableEq, Repr

-- pub fn change_card(&mut self, card_index: usize)
def App.change_card (s : App) (card_index : Nat) : Option App := do
  let dk ← s.decks[s.current_deck]?
  let card ← dk.value.cards[card_index]?
  pure { s with current_card := some card_index,
                card_front := card.front.text,
                card_back := card.back.text }

-- Shared tail of get_card_for_revision: assign current_card from
-- due_card(), then change_card and report (true, true) when a card was
-- found, else (false, false).
def App.revisionScan (today : Date) (s : App) : Option (App × Bool × Bool) := do
  let dk ← s.decks[s.current_deck]?
  let s1 := { s with current_card := Deck.due_card today dk.value }
  match s1.current_card with
  | some i => (App.change_card s1 i).map (fun s2 => (s2, true, true))
  | none => pure (s1, false, false)

-- pub fn get_card_for_revision(&mut self) -> (bool, bool)
-- Returns (card_exists, got a new card).  When a current card exists and
-- its current_repeat_in is 0 the function returns (true, false) at once,
-- leaving the state untouched; otherwise it rescans with due_card().
def App.get_card_for_revision (today : Date) (s : App) : Option (App × Bool × Bool) :=
  match s.current_card with
  | some result => do
    let dk ← s.decks[s.current_deck]?
    let card ← dk.value.cards[result]?
    if card.current_repeat_in == 0 then
      pure (s, true, false)
    else
      App.revisionScan today s
  | none => App.revisionScan today s

-- pub fn edit_card(&mut self): overwrite front.text and back.text of the
-- current card with the card_front / card_back buffers.
def App.edit_card (s : App) : Option App := do
  let i ← s.current_card
  let dk ← s.decks[s.current_deck]?
  let card ← dk.value.cards[i]?
  let card2 := { card with front := { card.front with text := s.card_front },
                           back := { card.back with text := s.card_back } }
  let dk2 := { dk with value := { dk.value with cards := dk.value.cards.set i card2 } }
  pure { s with decks := s.decks.set s.current_deck dk2 }

-- pub fn search(&mut self) -> Vec<(usize, String)>
def App.search (s : App) : Option (App × List (Nat × String)) :=
  if s.decks.length == 0 then
    some (s, [])
  else do
    let dk ← s.decks[s.current_deck]?
    pure (s, Deck.search dk.value s.back_search s.search_text)

-- Vec::swap_remove(i): move the last element into slot i, drop the last
-- slot; panics (none) when i is out of bounds.
def swapRemoveList (l : List α) (i : Nat) : Option (List α) := do
  let last ← l[l.length - 1]?
  let _ ← l[i]?
  pure ((l.set i last).dropLast)

-- pub fn delete_card(&mut self): swap_remove the current card, then clear
-- current_card.
def App.delete_card (s : App) : Option App := do
  let i ← s.current_card
  let dk ← s.decks[s.current_deck]?
  let cards2 ← swapRemoveList dk.value.cards i
  let dk2 := { dk with value := { dk.value with cards := cards2 } }
  pure { s with decks := s.decks.set s.current_deck dk2, current_card := none }

/-! ## Concrete states used by counterexamples and witnesses -/

def exToday : Date := ⟨10, 5, 2024⟩

def exCardA : Card :=
  { front := { text := "front A", audio_path := some "a.mp3" },
    back := { text := "back A", audio_path := none },
    interval_tier := 0, current_repeat_in := 0, due_date := ⟨10, 5, 2024⟩ }

def exCardB : Card :=
  { front := { text := "front B", audio_path := none },
    back := { text := "back B", audio_path := none },
    interval_tier := 0, current_repeat_in := 0, due_date := ⟨9, 5, 2024⟩ }

def exDeck : DeckFromFile :=
  { value := { name := "deck", cards := [exCardA, exCardB] }, path := "deck.sdeck" }

def exApp : App :=
  { config := { folder_path := "" },
    decks := [exDeck],
    current_deck := 0,
    current_card := some 0,
    card_front := "edited front",
    card_back := "edited back",
    search_text := "",
    back_search := false }

def exEmptyApp : App :=
  { config := { folder_path := "" },
    decks := [],
    current_deck := 0,
    current_card := none,
    card_front := "",
    card_back := "",
    search_text := "",
    back_search := false }

-- The state edit_card produces, spelled out for the frame theorem of the
-- editing claim: only the two text fields of the current card change.
def editedCard (s : App) (card : Card) : Card :=
  { card with
      front := { card.front with text := s.card_front },
      back := { card.back with text := s.card_back } }

def editedDeck (s : App) (dk : DeckFromFile) (i : Nat) (card : Card) : DeckFromFile :=
  { dk with value := { dk.value with cards := dk.value.cards.set i (editedCard s card) } }

def editedApp (s : App) (dk : DeckFromFile) (i : Nat) (card : Card) : App :=
  { s with decks := s.decks.set s.current_deck (editedDeck s dk i card) }

-- The state App.delete_card produces from exApp: card B moved into slot 0,
-- last slot dropped, current_card cleared.
def exAppDeleted : App :=
  { exApp with
    decks := [{ value := { name := "deck", cards := [exCardB] },
                path := "deck.sdeck" }],
    current_card := none }

/-! ## Theorems for the date claims -/

/-- Claim C5: is_leap_year implements the Gregorian rule
`(year % 4 == 0 && year % 100 != 0) || year % 400 == 0` for every year,
and in particular is false at 1900, true at 2000, true at 2024, false at 2023. -/
theorem is_leap_year_gregorian :
    (∀ year : Nat, is_leap_year year = true ↔ gregorianRule year) ∧
    is_leap_year 1900 = false ∧ is_leap_year 2000 = true ∧
    is_leap_year 2024 = true ∧ is_leap_year 2023 = false := by
  refine ⟨fun year => ?_, by decide, by decide, by decide, by decide⟩
  simp [is_leap_year, gregorianRule]

/-- Claim C7: for every month in 1..=12, month_length returns the standard
Gregorian table value, with February lengthened to 29 in leap years. -/
theorem month_length_table (year : Nat) :
    month_length 1 year = 31 ∧
    month_length 2 year = (if is_leap_year year then 29 else 28) ∧
    month_length 3 year = 31 ∧
    month_length 4 year = 30 ∧
    month_length 5 year = 31 ∧
    month_length 6 year = 30 ∧
    month_length 7 year = 31 ∧
    month_length 8 year = 31 ∧
    month_length 9 year = 30 ∧
    month_length 10 year = 31 ∧
    month_length 11 year = 30 ∧
    month_length 12 year = 31 := by
  cases h : is_leap_year year <;>
    simp [month_length, DAYS_IN_MONTH, h]

/-- Claim C6: partial comparison of dates always returns Some, and the
returned ordering is the lexicographic (year, month, day) order: lt exactly
on spec-lexicographic-less, eq exactly on field-wise equality, gt exactly on
the reverse. -/
theorem dateCmpOpt_lex (a b : Date) :
    (dateCmpOpt a b).isSome = true ∧
    (dateCmpOpt a b = some Ordering.lt ↔ dateLexLt a b) ∧
    (dateCmpOpt a b = some Ordering.eq ↔ dateEq a b = true) ∧
    (dateCmpOpt a b = some Ordering.gt ↔ dateLexLt b a) := by
  unfold dateCmpOpt natCmpOpt dateLexLt dateEq
  rcases Nat.lt_trichotomy a.year b.year with hy | hy | hy <;>
    [skip; rcases Nat.lt_trichotomy a.month b.month with hm | hm | hm; skip] <;>
    [skip; skip; rcases Nat.lt_trichotomy a.day b.day with hd | hd | hd; skip; skip] <;>
    simp_all <;> omega

/-- Claim C3 fails in the code: the day-count difference between
December 31, 2023 and January 1, 2024 is 395 according to Date::difference
(365 for the year 2023 plus the day delta 30), not 1 as the spec requires. -/
theorem difference_dec31_jan1 :
    difference ⟨31, 12, 2023⟩ ⟨1, 1, 2024⟩ = 395 ∧
    difference ⟨1, 1, 2024⟩ ⟨31, 12, 2023⟩ = 365 := by decide

/-- Claim C1 fails in the code: Date::difference is not symmetric, because
both the year loop and the month loop run over a Rust range that is empty
when the first date's component exceeds the second's. -/
theorem difference_not_symmetric :
    difference ⟨1, 1, 2023⟩ ⟨1, 1, 2024⟩ = 365 ∧
    difference ⟨1, 1, 2024⟩ ⟨1, 1, 2023⟩ = 0 := by decide

/-- Claim C4 fails in the code: Date::difference returns 0 for the distinct
dates February 1 2024 and January 1 2024 (the month range 2..1 is empty and
the days agree), so zero does not imply equality. -/
theorem difference_zero_not_eq :
    difference ⟨1, 2, 2024⟩ ⟨1, 1, 2024⟩ = 0 ∧
    dateEq ⟨1, 2, 2024⟩ ⟨1, 1, 2024⟩ = false := by decide

/-! ## Witnesses for the date claims -/

/-- Witness for C5 at a concrete year. -/
theorem is_leap_year_gregorian_witness : is_leap_year 2000 = true :=
  is_leap_year_gregorian.2.2.1

/-- Witness for C7 at a concrete year: February 2024 has 29 days. -/
theorem month_length_table_witness : month_length 2 2024 = 29 := by
  rw [(month_length_table 2024).2.1]; decide

/-- Witness for C6 at concrete dates. -/
theorem dateCmpOpt_lex_witness :
    dateCmpOpt ⟨31, 12, 2023⟩ ⟨1, 1, 2024⟩ = some Ordering.lt :=
  (dateCmpOpt_lex ⟨31, 12, 2023⟩ ⟨1, 1, 2024⟩).2.1.mpr (by decide)

/-! ## Theorems for the app claims -/

/-- Claim C2 fails in the code: with the just-reviewed card (position 0)
still due today (current_repeat_in = 0) and a second, distinct due card at
position 1, get_card_for_revision returns the very same card 0 again,
as (true, false), without scanning for the other due card. -/
theorem revision_repeat_counterexample :
    App.get_card_for_revision exToday exApp = some (exApp, true, false) ∧
    exApp.current_card = some 0 ∧
    exDeck.value.cards[1]? = some exCardB ∧
    date_le exCardB.due_date exToday = true := by decide

/-- Claim C2 amended: whenever the current (just-reviewed) card's
current_repeat_in is 0 — in particular right after a Wrong answer made it
due again today — get_card_for_revision immediately returns that same card
as (true, false) with the state untouched, regardless of any other due card
in the deck; it scans for a new due card only when there is no current card
or the current card's current_repeat_in is nonzero. -/
theorem revision_keeps_current_when_repeat_zero (today : Date) (s : App)
    (i : Nat) (dk : DeckFromFile) (card : Card)
    (hc : s.current_card = some i)
    (hdk : s.decks[s.current_deck]? = some dk)
    (hcard : dk.value.cards[i]? = some card)
    (hrep : card.current_repeat_in = 0) :
    App.get_card_for_revision today s = some (s, true, false) := by
  simp [App.get_card_for_revision, hc, hdk, hcard, hrep]

/-- Witness for the amended C2 at the concrete state. -/
theorem revision_keeps_current_witness :
    App.get_card_for_revision exToday exApp = some (exApp, true, false) :=
  revision_keeps_current_when_repeat_zero exToday exApp 0 exDeck exCardA
    rfl rfl rfl rfl

/-- Claim C8: edit_card succeeds on a valid current card and replaces only
the front and back text (with the card_front / card_back buffers); the
card's scheduling state (interval tier, repeat counter, due date) and both
audio references are unchanged, as are the deck name and the cached current
card position. -/
theorem edit_card_replaces_text_only (s : App) (i : Nat)
    (dk : DeckFromFile) (card : Card)
    (hc : s.current_card = some i)
    (hdk : s.decks[s.current_deck]? = some dk)
    (hcard : dk.value.cards[i]? = some card) :
    ∃ s2 dk2 card2,
      App.edit_card s = some s2 ∧
      s2.decks[s.current_deck]? = some dk2 ∧
      dk2.value.cards[i]? = some card2 ∧
      card2.front.text = s.card_front ∧
      card2.back.text = s.card_back ∧
      card2.front.audio_path = card.front.audio_path ∧
      card2.back.audio_path = card.back.audio_path ∧
      card2.interval_tier = card.interval_tier ∧
      card2.current_repeat_in = card.current_repeat_in ∧
      card2.due_date = card.due_date ∧
      s2.current_card = s.current_card ∧
      dk2.value.name = dk.value.name ∧
      dk2.path = dk.path := by
  obtain ⟨hdlen, -⟩ := List.getElem?_eq_some.mp hdk
  obtain ⟨hclen, -⟩ := List.getElem?_eq_some.mp hcard
  refine ⟨editedApp s dk i card, editedDeck s dk i card, editedCard s card,
    ?_, ?_, ?_, rfl, rfl, rfl, rfl, rfl, rfl, rfl, rfl, rfl, rfl⟩
  · simp [App.edit_card, editedApp, editedDeck, editedCard, hc, hdk, hcard]
  · exact List.getElem?_set_eq_of_lt _ hdlen
  · exact List.getElem?_set_eq_of_lt _ hclen

/-- Witness for C8 at the concrete state. -/
theorem edit_card_witness :
    ∃ s2 dk2 card2,
      App.edit_card exApp = some s2 ∧
      s2.decks[exApp.current_deck]? = some dk2 ∧
      dk2.value.cards[0]? = some card2 ∧
      card2.front.text = exApp.card_front ∧
      card2.back.text = exApp.card_back ∧
      card2.front.audio_path = exCardA.front.audio_path ∧
      card2.back.audio_path = exCardA.back.audio_path ∧
      card2.interval_tier = exCardA.interval_tier ∧
      card2.current_repeat_in = exCardA.current_repeat_in ∧
      card2.due_date = exCardA.due_date ∧
      s2.current_card = exApp.current_card ∧
      dk2.value.name = exDeck.value.name ∧
      dk2.path = exDeck.path :=
  edit_card_replaces_text_only exApp 0 exDeck exCardA rfl rfl rfl

/-- Claim C9: search against zero decks is not an error: it returns the
empty result sequence and leaves the application state unchanged. -/
theorem search_empty_decks (s : App) (h : s.decks = []) :
    App.search s = some (s, []) := by
  simp [App.search, h]

/-- Witness for C9 at the concrete empty-deck state. -/
theorem search_empty_decks_witness :
    App.search exEmptyApp = some (exEmptyApp, []) :=
  search_empty_decks exEmptyApp rfl

/-- Claim C10: whenever delete_card succeeds, the resulting state's cached
current-card position is cleared to none. -/
theorem delete_card_clears_current (s s2 : App)
    (h : App.delete_card s = some s2) : s2.current_card = none := by
  unfold App.delete_card at h
  rcases hc : s.current_card with _ | i <;> rw [hc] at h <;> simp at h
  rcases hdk : s.decks[s.current_deck]? with _ | dk <;> rw [hdk] at h <;> simp at h
  rcases hcs : swapRemoveList dk.value.cards i with _ | cs <;> rw [hcs] at h <;> simp at h
  rw [← h]

/-- Witness for C10 at the concrete state. -/
theorem delete_card_clears_current_witness :
    exAppDeleted.current_card = none :=
  delete_card_clears_current exApp exAppDeleted rfl

end SmartLearner
